import Mathlib

/-!
Verification development for the q-voter experiment-specification engine.

The Python sources are shallowly embedded here:
* `utils.py`   — `CompoundVar` (construction, evaluation, name transformation),
* `dataoper.py` — `SpecManager._process_value`, `SpecManager._parse_req_part`,
  `DataManager.get_working_data`, `DataManager._req_add_results`,
  `DataManager.get_plotting_data`, `DataManager.update_file`,
* `simul.py`   — `SimulCollector.run` and its chunked execution loop.

Conventions of the embedding:
* JSON/numeric scalars are modelled as rationals (`ℚ`); the sources use Python
  ints/floats whose arithmetic on the inputs relevant here is exact.
  Division by zero (a Python `ZeroDivisionError`) and non-integer exponents
  are outside the model; no claim below depends on them.
* Python exceptions are modelled by an explicit error type `PyErr`;
  `SpecificationError` is `.specErr`, `FileManagementError` (the store error)
  is `.fileErr`, and raw `KeyError`/`TypeError`/`IndexError` escapes are the
  remaining constructors.  Error message strings keep the source wording
  (minus interpolated values).
* Table cells are `Option ℚ` (`none` models a pandas `NaN`/null; pandas merge
  keys treat `NaN` as equal to `NaN`, matching `Option` equality).
* The persisted store keeps the schema "requirement columns followed by the
  two outcome columns", which the program maintains; selecting the
  requirement columns of a persisted row is therefore `List.take nreq`.
* All fallible computations return `Except PyErr` written with explicit
  matches (the monadic plumbing is inlined).
-/

/-- Fixed rounding precision of the data manager: 3 decimals.
`roundP x` is `x` rounded to 3 decimal places (`DataFrame.round(3)`). -/
def roundP (x : ℚ) : ℚ := ((round (x * 1000) : ℤ) : ℚ) / 1000

/-- Rounding of one table cell; a null (`NaN`) cell stays null. -/
def roundC (c : Option ℚ) : Option ℚ := c.map roundP

/-- A concrete table row: the cell list in schema order. -/
abbrev RowC := List (Option ℚ)

/-- Rounding of a whole row (`DataFrame.round(PRECISION)` on one row). -/
def roundRow (r : RowC) : RowC := r.map roundC

/-- Raw JSON-like values as read from the specification file. -/
inductive Raw where
  | num (q : ℚ)
  | str (s : String)
  | list (l : List Raw)
  | dict (d : List (String × Raw))
  | null

/-- Embedded Python exceptions. -/
inductive PyErr where
  | specErr (msg : String)
  | fileErr (msg : String)
  | keyErr (key : String)
  | typeErr (msg : String)
  | indexErr
  deriving DecidableEq

/-- Python list indexing `l[i]`: negative indices count from the end;
out-of-range access yields `none` (an `IndexError`). -/
def pyGet {α : Type} (l : List α) (i : ℤ) : Option α :=
  let j := if i < 0 then i + l.length else i
  if 0 ≤ j then l.get? j.toNat else none

/-- Python list assignment `l[i] = a` (negative indices as in `pyGet`). -/
def pySet {α : Type} (l : List α) (i : ℤ) (a : α) : Option (List α) :=
  let j := if i < 0 then i + l.length else i
  if 0 ≤ j ∧ j < (l.length : ℤ) then some (l.set j.toNat a) else none

/-- Python `l.pop(i)` restricted to the resulting list. -/
def pyPop {α : Type} (l : List α) (i : ℤ) : Option (List α) :=
  let j := if i < 0 then i + l.length else i
  if 0 ≤ j ∧ j < (l.length : ℤ) then some (l.eraseIdx j.toNat) else none

/-- Insertion of one integer into a sorted list (helper for `pysorted`). -/
def insertZ (a : ℤ) : List ℤ → List ℤ
  | [] => [a]
  | b :: l => if a ≤ b then a :: b :: l else b :: insertZ a l

/-- Python `sorted` on a list of integers. -/
def pysorted : List ℤ → List ℤ
  | [] => []
  | a :: l => insertZ a (pysorted l)

/-- Keep the first occurrence of every element (`drop_duplicates`). -/
def dropDupsAux {α : Type} [DecidableEq α] (seen : List α) : List α → List α
  | [] => []
  | a :: l => if a ∈ seen then dropDupsAux seen l else a :: dropDupsAux (a :: seen) l

/-- `drop_duplicates` keeping first occurrences. -/
def dropDups {α : Type} [DecidableEq α] (l : List α) : List α := dropDupsAux [] l

/-- Python `str.split(".")`, written over the character list so that it
evaluates inside the kernel: split at every dot, keeping empty segments. -/
def splitDotsAux : List Char → List Char → List String
  | [], cur => [String.mk cur.reverse]
  | c :: cs, cur =>
    if c = '.' then String.mk cur.reverse :: splitDotsAux cs []
    else splitDotsAux cs (c :: cur)

/-- The last dot-separated segment of a parameter key
(`SpecManager._drop_param_prefix`). -/
def dropParamPref (s : String) : String := (splitDotsAux s.data []).getLastD s

/-- Whether `sub` starts `cs` (character-level test). -/
def isPref : List Char → List Char → Bool
  | [], _ => true
  | _ :: _, [] => false
  | a :: as, b :: bs => a = b && isPref as bs

/-- Whether `sub` occurs somewhere in `cs`. -/
def hasSubAux (sub : List Char) : List Char → Bool
  | [] => isPref sub []
  | c :: cs => isPref sub (c :: cs) || hasSubAux sub cs

/-- Python substring test `sub in s`. -/
def strContainsSub (s sub : String) : Bool := hasSubAux sub.data s.data

/-! ## CompoundVar (`utils.py`) -/

/-- Python float floor-division `a // b` on exact rationals. -/
def qFloorDiv (a b : ℚ) : ℚ := (⌊a / b⌋ : ℤ)

/-- Python `a ** b` for a rational base and an integer-valued exponent;
fractional exponents produce irrational results and lie outside the model. -/
def qPow (a b : ℚ) : ℚ := if b.den = 1 then a ^ b.num else 0

/-- The operator dictionary `oper_translator` of `CompoundVar.__init__`. -/
def operTranslator (op : String) : Option (ℚ → ℚ → ℚ) :=
  if op = "//" then some qFloorDiv
  else if op = "/" then some (fun a b => a / b)
  else if op = "*" then some (fun a b => a * b)
  else if op = "^" then some qPow
  else none

/-- A validated compound variable: raw operands, operator names and the
evaluation order (`CompoundVar` object state after `__init__`). -/
structure CompoundVar where
  params : List Raw
  operations : List String
  order : List ℕ

/-- `CompoundVar._validate_input` plus extraction of the operator names:
params and operations must be lists with `len(params) == len(operations)+1`,
at least two operands, and every operation known to `oper_translator`. -/
def validateCompound (params operations : Raw) : Except String (List Raw × List String) :=
  match params, operations with
  | .list ps, .list os =>
    if ps.length = os.length + 1 ∧ 2 ≤ ps.length then
      match os.mapM (fun o => match o with
          | .str s => if (operTranslator s).isSome then some s else none
          | _ => none) with
      | some names => .ok (ps, names)
      | none => .error "Unknown operation"
    else .error "Invalid component/operation numbers"
  | _, _ => .error "Invalid compound parameter structure"

/-- Interpret a raw order list as integers (a JSON list of ints). -/
def asIntList : List Raw → Option (List ℤ)
  | [] => some []
  | .num q :: l => if q.den = 1 then (asIntList l).map (fun zs => q.num :: zs) else none
  | _ :: _ => none

/-- The numeric values of a homogeneous list of numbers. -/
def numListOf : List Raw → Option (List ℚ)
  | [] => some []
  | .num q :: l => (numListOf l).map (fun qs => q :: qs)
  | _ :: _ => none

/-- The string values of a homogeneous list of strings. -/
def strListOf : List Raw → Option (List String)
  | [] => some []
  | .str s :: l => (strListOf l).map (fun ss => s :: ss)
  | _ :: _ => none

/-- Insertion into a ≤-sorted list of rationals. -/
def insertQ (a : ℚ) : List ℚ → List ℚ
  | [] => [a]
  | b :: l => if a ≤ b then a :: b :: l else b :: insertQ a l

/-- Sorting of rationals ascending. -/
def qsort : List ℚ → List ℚ
  | [] => []
  | a :: l => insertQ a (qsort l)

/-- Insertion into a ≤-sorted list of strings. -/
def insertS (a : String) : List String → List String
  | [] => [a]
  | b :: l => if a ≤ b then a :: b :: l else b :: insertS a l

/-- Sorting of strings (lexicographic order). -/
def ssort : List String → List String
  | [] => []
  | a :: l => insertS a (ssort l)

/-- Python `sorted(...)` on a raw list.  A list of at most one element sorts
without any comparison; a homogeneous list of numbers or of strings sorts;
any other element combination (mixed types, `None`, dictionaries) makes some
element comparison raise `TypeError`, modelled as `none`.  (Python also
orders homogeneous lists of lists; such order values are outside the model
and no claim depends on them.) -/
def pySortedRaw (l : List Raw) : Option (List Raw) :=
  if l.length ≤ 1 then some l
  else
    match numListOf l with
    | some qs => some ((qsort qs).map Raw.num)
    | none =>
      match strListOf l with
      | some ss => some ((ssort ss).map Raw.str)
      | none => none

/-- Python `==` between a raw list and `list(range(n))`: element-wise, a
number equals an integer when their values agree and any other element is
unequal (comparison via `==` never raises). -/
def eqRawNumList : List Raw → List ℕ → Bool
  | [], [] => true
  | .num q :: l, i :: is => (q = (i : ℚ)) && eqRawNumList l is
  | _ :: _, _ :: _ => false
  | _, _ => false

/-- `CompoundVar.__init__`: validate the operands/operators, then process a
custom order.  A non-list order is ignored.  For a list, following
`utils.py:38`: a wrong length short-circuits the `or` before sorting and
falls back to the default order with a warning (the returned Bool);
otherwise Python evaluates `sorted(order)`, which raises an uncaught
`TypeError` when the elements are not mutually orderable; a sorted list
different from `sorted(range(len(operations)))` falls back with a warning;
an order equal to that range (hence a list of integer-valued numbers) is
accepted as the evaluation order. -/
def mkCompoundVar (params operations : Raw) (order : Option Raw) :
    Except PyErr (CompoundVar × Bool) :=
  match validateCompound params operations with
  | .error m => .error (.specErr m)
  | .ok (ps, names) =>
    let defOrd := List.range names.length
    match order with
    | some (.list l) =>
      if l.length ≠ names.length then .ok (⟨ps, names, defOrd⟩, true)
      else
        match pySortedRaw l with
        | none => .error (.typeErr "unorderable types in sorted")
        | some sl =>
          if eqRawNumList sl defOrd then
            .ok (⟨ps, names, ((asIntList l).getD []).map Int.toNat⟩, false)
          else .ok (⟨ps, names, defOrd⟩, true)
    | _ => .ok (⟨ps, names, defOrd⟩, false)

/-- `CompoundVar.main`: the first operand. -/
def CompoundVar.main (cv : CompoundVar) : Option Raw := cv.params.head?

/-- `CompoundVar._param_as_numeric`: numbers pass through, names are looked
up in the row data, anything else is a `SpecificationError`. -/
def paramAsNumeric (p : Raw) (data : List (String × ℚ)) : Except PyErr ℚ :=
  match p with
  | .num q => .ok q
  | .str s =>
    match data.lookup s with
    | some v => .ok v
    | none => .error (.specErr "Cannot evaluate a compound value. Parameter not found")
  | _ => .error (.specErr "Unknown compound parameter type")

/-- The loop of `CompoundVar.eval`: iterate over the operation order, each
step computing the corrected current/next positions from the list `popped`
of previously removed (corrected) positions, combining the two values,
storing the result at the current position and popping the next; finally
return `values[0]`. -/
def evalLoop (ops : List String) (data : List (String × ℚ)) :
    List ℕ → List Raw → List ℤ → Except PyErr Raw
  | [], values, _ =>
    match pyGet values 0 with
    | some v => .ok v
    | none => .error .indexErr
  | oi :: rest, values, popped =>
    match ops.get? oi with
    | none => .error .indexErr
    | some opName =>
      match operTranslator opName with
      | none => .error (.keyErr opName)
      | some f =>
        let cur : ℤ := (oi : ℤ) - (popped.countP (fun x => x ≤ (oi : ℤ)))
        let next : ℤ := (oi : ℤ) + 1 - (popped.countP (fun x => x ≤ (oi : ℤ) + 1))
        match pyGet values cur, pyGet values next with
        | some vc, some vn =>
          match paramAsNumeric vc data with
          | .error e => .error e
          | .ok a =>
            match paramAsNumeric vn data with
            | .error e => .error e
            | .ok b =>
              match pySet values cur (.num (f a b)) with
              | none => .error .indexErr
              | some values' =>
                match pyPop values' next with
                | none => .error .indexErr
                | some values'' => evalLoop ops data rest values'' (popped ++ [next])
        | _, _ => .error .indexErr

/-- `CompoundVar.eval`: run the operator consumption loop on a copy of the
operand list and return the single remaining value. -/
def CompoundVar.eval (cv : CompoundVar) (data : List (String × ℚ)) : Except PyErr Raw :=
  evalLoop cv.operations data cv.order cv.params []

/-- `CompoundVar.eval` together with the post-state of the object: the method
only mutates the local variables `values` (a copy of `params`) and `popped`;
no field of `self` is ever assigned, so the object state is returned as-is. -/
def CompoundVar.evalS (cv : CompoundVar) (data : List (String × ℚ)) :
    Except PyErr Raw × CompoundVar :=
  (cv.eval data, cv)

/-- Modelled from the spec: one step of the pairwise consumption semantics
of §4.1.  Each entry keeps its original operand index; the step for operator
`oi` combines the surviving cell holding the operand at designated position
`oi` (adjusted for operands already consumed) with the cell immediately to
its right, stores the result on the left and removes the right cell. -/
def specStep (ops : List String) (data : List (String × ℚ)) (oi : ℕ)
    (entries : List (ℕ × Raw)) : Except PyErr (List (ℕ × Raw)) :=
  match ops.get? oi with
  | none => .error .indexErr
  | some opName =>
    match operTranslator opName with
    | none => .error (.keyErr opName)
    | some f =>
      let j := (entries.takeWhile (fun e => e.1 ≤ oi)).length - 1
      match entries.get? j, entries.get? (j + 1) with
      | some ej, some en =>
        match paramAsNumeric ej.2 data with
        | .error e => .error e
        | .ok a =>
          match paramAsNumeric en.2 data with
          | .error e => .error e
          | .ok b => .ok ((entries.set j (ej.1, .num (f a b))).eraseIdx (j + 1))
      | _, _ => .error .indexErr

/-- Modelled from the spec: folding `specStep` over the evaluation order. -/
def specFold (ops : List String) (data : List (String × ℚ)) :
    List ℕ → List (ℕ × Raw) → Except PyErr (List (ℕ × Raw))
  | [], entries => .ok entries
  | oi :: rest, entries =>
    match specStep ops data oi entries with
    | .error e => .error e
    | .ok entries' => specFold ops data rest entries'

/-- Modelled from the spec: full ordered evaluation per §4.1, consuming the
operators in the given order and returning the single surviving value. -/
def specOrderedEval (cv : CompoundVar) (data : List (String × ℚ)) : Except PyErr Raw :=
  match specFold cv.operations data cv.order cv.params.enum with
  | .error e => .error e
  | .ok [e] => .ok e.2
  | .ok _ => .error .indexErr

/-- `_drop_param_prefix` as applied to an arbitrary operand by
`transform_names`: a non-string operand has no `split` attribute, so Python
raises an `AttributeError` (modelled as a type error). -/
def dropParamPrefRaw (r : Raw) : Except PyErr Raw :=
  match r with
  | .str s => .ok (.str (dropParamPref s))
  | _ => .error (.typeErr "AttributeError: object has no attribute split")

/-- Apply a fallible function to every list element, stopping at the first
error (the inlined `Except` traversal). -/
def exceptMapM {α β : Type} (f : α → Except PyErr β) : List α → Except PyErr (List β)
  | [] => .ok []
  | a :: l =>
    match f a with
    | .error e => .error e
    | .ok b =>
      match exceptMapM f l with
      | .error e => .error e
      | .ok bs => .ok (b :: bs)

/-- `CompoundVar.transform_names`: the source maps the given function over
every element of `self.params` (`[fun(param) for param in self.params]`),
not only over the name-type operands. -/
def transformNames (cv : CompoundVar) (fn : Raw → Except PyErr Raw) :
    Except PyErr CompoundVar :=
  match exceptMapM fn cv.params with
  | .error e => .error e
  | .ok ps => .ok { cv with params := ps }

/-! ## SpecManager value expansion (`dataoper.py`, `_process_value`) -/

/-- A parsed specification value element: a scalar number, a text value or a
compound variable. -/
inductive PVal where
  | num (q : ℚ)
  | str (s : String)
  | cvar (c : CompoundVar)

/-- The result of `_process_value`: a numpy array of parsed elements, a bare
scalar (only in `single_str` mode) or a passthrough `None`. -/
inductive Processed where
  | arr (l : List PVal)
  | scalar (v : PVal)
  | null

/-- A specification sub-dictionary. -/
abbrev PyDict := List (String × Raw)

/-- Dictionary key membership. -/
def dictHasKey (d : PyDict) (k : String) : Bool := (d.lookup k).isSome

/-- `dict.pop(k)`: the value together with the remaining dictionary, or a
`KeyError`. -/
def dictPop (d : PyDict) (k : String) : Except PyErr (Raw × PyDict) :=
  match d.lookup k with
  | some v => .ok (v, d.filter (fun p => p.1 ≠ k))
  | none => .error (.keyErr k)

/-- `is_dict_with_keys` from `utils.py`: the object is a dictionary carrying
all the given keys. -/
def isDictWithKeys (val : Raw) (keys : List String) : Bool :=
  match val with
  | .dict d => keys.all (dictHasKey d)
  | _ => false

/-- `np.unique(np.array(val))` on a raw list: a homogeneous list of numbers
or of strings is sorted and deduplicated; any other element mix fails the
array sort and is reported as invalid list elements.  (numpy would coerce a
mixed number/string list to strings; such lists are outside the model.) -/
def uniqueElems (l : List Raw) : Except PyErr (List PVal) :=
  match numListOf l with
  | some qs => .ok ((dropDups (qsort qs)).map PVal.num)
  | none =>
    match strListOf l with
    | some ss => .ok ((dropDups (ssort ss)).map PVal.str)
    | none => .error (.specErr "Invalid types of the list elements")

/-- `np.arange(start, stop + step, step)` on rationals: the half-open
arithmetic progression whose length is `ceil(((stop + step) - start)/step)`.
A zero step (a numpy error) lies outside the model. -/
def arange (start step stop : ℚ) : List ℚ :=
  let len : ℤ := ⌈(stop + step - start) / step⌉
  (List.range len.toNat).map (fun (i : ℕ) => start + (i : ℚ) * step)

/-- Extract the three numeric fields of a range descriptor; non-numeric
fields would make `np.arange` raise a `TypeError`. -/
def rangeNums (d : PyDict) : Except PyErr (ℚ × ℚ × ℚ) :=
  match d.lookup "start", d.lookup "step", d.lookup "stop" with
  | some (.num a), some (.num s), some (.num b) => .ok (a, s, b)
  | _, _, _ => .error (.typeErr "unsupported operand type for arange")

/-- Final wrapping step of `_process_value`: a non-array parsed value is
wrapped into a one-element array unless `single_str` is set. -/
def wrapScalar (v : PVal) (single : Bool) : Processed :=
  if single then .scalar v else .arr [v]

/-- `SpecManager._process_value`: validate a raw specification value and
parse it into a value domain, following the source branch order: scalars;
lists (only if `multiple`); range dictionaries (only if `multiple`);
compound-variable dictionaries; unrecognized dictionaries; `None`
passthrough; non-singular values. -/
def processValue (val : Raw) (multiple single : Bool) : Except PyErr Processed :=
  match val with
  | .num q => .ok (wrapScalar (.num q) single)
  | .str s => .ok (wrapScalar (.str s) single)
  | .list l =>
    if multiple then
      match uniqueElems l with
      | .error e => .error e
      | .ok elems =>
        if elems.isEmpty then
          .error (.specErr "Value presents an empty list of parameters")
        else .ok (.arr elems)
    else .error (.specErr "Value in config cannot be non-singular")
  | .dict d =>
    if multiple && (["start", "step", "stop"].all (dictHasKey d)) then
      match rangeNums d with
      | .error e => .error e
      | .ok (a, s, b) =>
        if (arange a s b).isEmpty then
          .error (.specErr "Value presents an empty list of parameters")
        else .ok (.arr ((arange a s b).map PVal.num))
    else if ["params", "operations"].all (dictHasKey d) then
      match mkCompoundVar ((d.lookup "params").getD .null)
          ((d.lookup "operations").getD .null) (d.lookup "order") with
      | .error e => .error e
      | .ok (cv, _warn) => .ok (wrapScalar (.cvar cv) single)
    else .error (.specErr "Dictionary value schema not recognized")
  | .null => .ok .null

/-! ## SpecManager requirement parsing (`dataoper.py`, `_parse_req_part`) -/

/-- Extraction of the plot argument variable name: a plain string is taken
as-is; otherwise the processed value is inspected — `_process_value` without
`single_str` always wraps a compound variable into a one-element array, so
the `isinstance(..., CompoundVar)` test fails and any non-string argument
specification raises. -/
def plotMainVarOf (plotArgs : Raw) : Except PyErr String :=
  match plotArgs with
  | .str s => .ok s
  | _ =>
    match processValue plotArgs false false with
    | .error e => .error e
    | .ok (.scalar (.cvar c)) =>
      match c.main with
      | some (.str s) => .ok s
      | _ => .error (.typeErr "plot main variable is not a string")
    | .ok _ => .error (.specErr "Unknown plot argument specification")

/-- A processed value viewed as a domain for the Cartesian product; `None`
is not iterable in `itertools.product` (a Python `TypeError`). -/
def domainOf (p : Processed) : Except PyErr (List PVal) :=
  match p with
  | .arr l => .ok l
  | .scalar v => .ok [v]
  | .null => .error (.typeErr "NoneType is not iterable")

/-- Pop each of the given keys from the dictionary and process its value
with default flags (the mandatory-parameter resolution loop). -/
def popProcessAll (spec : PyDict) :
    List String → Except PyErr (List (String × Processed) × PyDict)
  | [] => .ok ([], spec)
  | k :: ks =>
    match dictPop spec k with
    | .error e => .error e
    | .ok (v, spec') =>
      match processValue v false false with
      | .error e => .error e
      | .ok pv =>
        match popProcessAll spec' ks with
        | .error e => .error e
        | .ok (rest, spec'') => .ok ((k, pv) :: rest, spec'')

/-- Keep the last binding of every key (a Python dict comprehension
overwrites earlier duplicates). -/
def keepLastKey (l : List (String × List PVal)) : List (String × List PVal) :=
  (dropDupsAux (α := String) [] (l.reverse.map (fun p => p.1))).reverse.filterMap
    (fun k => (l.reverse.lookup k).map (fun v => (k, v)))

/-- All rows of the Cartesian product of the given key domains, leftmost key
outermost (`itertools.product` order). -/
def cartesianRows : List (String × List PVal) → List (List (String × PVal))
  | [] => [[]]
  | (k, vs) :: rest =>
    vs.flatMap (fun v => (cartesianRows rest).map (fun r => (k, v) :: r))

/-- `SpecManager._param_cart`: drop the key prefixes (later duplicates of a
cleansed name overwrite earlier ones) and build the product rows. -/
def paramCart (params : List (String × List PVal)) : List (List (String × PVal)) :=
  cartesianRows (keepLastKey (params.map (fun p => (dropParamPref p.1, p.2))))

/-- The six mandatory specification keys. -/
def mandatoryKeys : List String :=
  ["net.net_type", "net.size", "method.mc_runs", "model.x", "model.q", "model.eps"]

/-- The tail of `_parse_req_part` shared by the `groups` and plain modes:
resolve the remaining mandatory keys and the optional network keys, build
one product per plot-related chunk and concatenate the chunks, returning
the rows and the cleansed covered parameter names. -/
def parseReqRest (spec : PyDict) (chunks : List (List (String × List PVal)))
    (covered : List String) :
    Except PyErr (List (List (String × PVal)) × List String) :=
  match popProcessAll spec (mandatoryKeys.filter (fun k => ¬ covered.contains k)) with
  | .error e => .error e
  | .ok (leftParams, specAfter) =>
    match exceptMapM
        (fun p => match processValue p.2 false false with
          | .error e => .error e
          | .ok v => .ok (p.1.replace "net." "", v))
        (specAfter.filter (fun p => strContainsSub p.1 "net.")) with
    | .error e => .error e
    | .ok netParams =>
      match exceptMapM
          (fun p => match domainOf p.2 with
            | .error e => .error e
            | .ok l => .ok (p.1, l))
          (leftParams ++ netParams) with
      | .error e => .error e
      | .ok nonPlotRel =>
        .ok ((chunks.map (fun ch => paramCart (nonPlotRel ++ ch))).flatten,
          covered.map dropParamPref)

/-- One `groups` element: pop the argument and group values and process both
as multi-valued domains; remaining keys are skipped with a warning. -/
def parseGroupElem (mainVar groupVar : String) (gRaw : Raw) :
    Except PyErr (List (String × List PVal)) :=
  match gRaw with
  | .dict gd =>
    match dictPop gd mainVar with
    | .error e => .error e
    | .ok (av, gd') =>
      match processValue av true false with
      | .error e => .error e
      | .ok avP =>
        match domainOf avP with
        | .error e => .error e
        | .ok avL =>
          match dictPop gd' groupVar with
          | .error e => .error e
          | .ok (gv, _gd'') =>
            match processValue gv true false with
            | .error e => .error e
            | .ok gvP =>
              match domainOf gvP with
              | .error e => .error e
              | .ok gvL => .ok [(mainVar, avL), (groupVar, gvL)]
  | _ => .error (.typeErr "group element is not a dictionary")

/-- The `groups` branch of `_parse_req_part` after all its validity checks. -/
def parseGroupsMode (s2 : PyDict) (plotMainVar g : String) :
    Except PyErr (List (List (String × PVal)) × List String) :=
  match dictPop s2 "groups" with
  | .error e => .error e
  | .ok (groupsRaw, s3) =>
    match groupsRaw with
    | .list gs =>
      if gs.isEmpty then
        .error (.specErr "existing groups section must contain a non-empty list")
      else
        match exceptMapM (parseGroupElem plotMainVar g) gs with
        | .error e => .error e
        | .ok chunks => parseReqRest s3 chunks [plotMainVar, g]
    | _ => .error (.specErr "existing groups section must contain a non-empty list")

/-- The plain (no `groups` section) branch of `_parse_req_part`. -/
def parsePlainMode (s2 : PyDict) (plotMainVar : String) (plotGroup : Option String) :
    Except PyErr (List (List (String × PVal)) × List String) :=
  match dictPop s2 plotMainVar with
  | .error e => .error e
  | .ok (argRaw, s3) =>
    match processValue argRaw true false with
    | .error e => .error e
    | .ok argP =>
      match domainOf argP with
      | .error e => .error e
      | .ok argL =>
        match plotGroup with
        | some g =>
          match dictPop s3 g with
          | .error e => .error e
          | .ok (gRaw, s4) =>
            match processValue gRaw true false with
            | .error e => .error e
            | .ok gP =>
              match domainOf gP with
              | .error e => .error e
              | .ok gL =>
                parseReqRest s4 [[(plotMainVar, argL), (g, gL)]] [plotMainVar, g]
        | none => parseReqRest s3 [[(plotMainVar, argL)]] [plotMainVar]

/-- The `plot.group` extraction of `_parse_req_part`: the popped value must
be a plain string; a missing key (`KeyError`) means no grouping. -/
def popPlotGroup (s1 : PyDict) : Except PyErr (Option String × PyDict) :=
  match dictPop s1 "plot.group" with
  | .ok (.str g, s') => .ok (some g, s')
  | .ok (_, _) => .error (.specErr "Grouping by a non direct parameter is not possible")
  | .error _ => .ok (none, s1)

/-- `SpecManager._parse_req_part`: resolve the argument and optional group
keys (with all their validity checks), then build the required rows either
from the explicit `groups` section or from the top-level entry. -/
def parseReqPart (partSpec : PyDict) :
    Except PyErr (List (List (String × PVal)) × List String) :=
  match dictPop partSpec "plot.args" with
  | .error e => .error e
  | .ok (plotArgs, s1) =>
    match plotMainVarOf plotArgs with
    | .error e => .error e
    | .ok plotMainVar =>
      match popPlotGroup s1 with
      | .error e => .error e
      | .ok (plotGroup?, s2) =>
        if some plotMainVar = plotGroup? then
          .error (.specErr "Groupping variable cannot be the one used for arguments")
        else if dictHasKey s2 "groups" then
          match processValue (.str plotMainVar) false false with
          | .ok (.scalar (.cvar _)) =>
            .error (.specErr
              "Cannot specify compound variables for various series using groups section")
          | _ =>
            match plotGroup? with
            | none =>
              .error (.specErr
                "groups section can be used only if plot.group parameter added")
            | some g =>
              if dictHasKey s2 plotMainVar || dictHasKey s2 g then
                .error (.specErr
                  "Arguments and groups cannot be given both in the groups section and outside of it")
              else parseGroupsMode s2 plotMainVar g
        else parsePlainMode s2 plotMainVar plotGroup?

/-! ## DataManager (`dataoper.py`) -/

/-- `DataManager.update_file`: when the store file already exists, append
the new chunk to the persisted rows with both parts rounded to the fixed
precision and the row index reset; on the first write the new chunk is
written back as-is. -/
def updateFile (store : Option (List RowC)) (newRows : List RowC) : List RowC :=
  match store with
  | some ex => ex.map roundRow ++ newRows.map roundRow
  | none => newRows

/-- `DataManager.get_working_data`: reindex the persisted table (empty when
the file does not exist) to the requirement columns, round both sides and
keep the requirement rows absent from the store (the `left_only` rows of the
indicator outer merge), dropping duplicates and appending the two null
outcome columns. -/
def getWorkingData (store : Option (List RowC)) (req : List RowC) (nreq : ℕ) : List RowC :=
  let ex := (store.getD []).map (fun r => r.take nreq)
  let missing := (req.map roundRow).filter
    (fun r => decide (r ∉ ex.map roundRow))
  (dropDups missing).map (fun r => r ++ [none, none])

/-- `DataManager._req_add_results`: outer-join the rounded store against the
rounded requirement table; any requirement row missing from the store stops
the report with a store error; otherwise the matched store rows restricted
to the requirement and outcome columns are returned, provided none of their
cells is null. -/
def reqAddResults (available : List RowC) (req : List RowC) (nreq : ℕ) :
    Except PyErr (List RowC) :=
  let avR := available.map roundRow
  let reqR := req.map roundRow
  if (reqR.filter (fun r => decide (r ∉ avR.map (fun a => a.take nreq)))) ≠ [] then
    .error (.fileErr "Data set for plots is not complete. Try to resimulate...")
  else
    let sel := avR.filter (fun a => decide (a.take nreq ∈ reqR))
    if sel.any (fun r => r.any (fun c => c.isNone)) then
      .error (.fileErr "Some values required for plotting are not given")
    else .ok sel

/-- `DataManager.get_plotting_data`: the store file must exist; enrich every
report requirement table with the stored outcomes. -/
def getPlottingData (store : Option (List RowC)) (reports : List (String × List RowC))
    (nreq : ℕ) : Except PyErr (List (String × List RowC)) :=
  match store with
  | none => .error (.fileErr "Data file does not exist. Plotting data cannot be prepared")
  | some av =>
    exceptMapM (fun p => match reqAddResults av p.2 nreq with
      | .error e => .error e
      | .ok t => .ok (p.1, t)) reports

/-! ## SimulCollector (`simul.py`) -/

/-- `np.array_split l k`: split into `k` parts; the first `l.length % k`
parts get one element more than the remaining ones. -/
def arraySplit {α : Type} : List α → ℕ → List (List α)
  | _, 0 => []
  | l, k + 1 =>
    let s := l.length / (k + 1) + (if l.length % (k + 1) = 0 then 0 else 1)
    l.take s :: arraySplit (l.drop s) k

/-- Write the two outcome scalars into the trailing outcome cells of a row
(`_run_one` rewriting its row with the simulation results). -/
def writeOut (row : RowC) (t e : ℚ) : RowC :=
  row.take (row.length - 2) ++ [some t, some e]

/-- The collector state: the configured chunk size, the missing-rows table
computed at construction and the persisted store contents. -/
structure Collector where
  chunkSize : ℕ
  data : List RowC
  store : Option (List RowC)

/-- The observable outcome of a collector run: the final store, the number
of engine invocations, the log lines and a possible simulation error. -/
structure RunOutcome where
  store : Option (List RowC)
  engineCalls : ℕ
  logs : List String
  err : Option String

/-- Process the rows of one chunk sequentially through the engine, writing
the outcomes back into the data table (`_run_chunk` before persisting).
The per-row `SimulParams` validation and the external engine call are
modelled together by the `engine` function. -/
def runChunkRows (engine : RowC → Except String (ℚ × ℚ)) :
    List RowC → List ℕ → Except String (List RowC)
  | data, [] => .ok data
  | data, ix :: rest =>
    match data.get? ix with
    | none => .error "index out of range"
    | some row =>
      match engine row with
      | .error e => .error e
      | .ok (t, e) => runChunkRows engine (data.set ix (writeOut row t e)) rest

/-- Run the chunks in order; after each completed chunk persist exactly that
chunk through `update_file`; a failing row aborts its chunk (which is not
persisted) and ends the run with the underlying cause, keeping the chunks
already persisted. -/
def runChunks (engine : RowC → Except String (ℚ × ℚ)) :
    Option (List RowC) → List RowC → List (List ℕ) → ℕ → RunOutcome
  | store, _, [], calls => ⟨store, calls, [], none⟩
  | store, data, ch :: rest, calls =>
    match runChunkRows engine data ch with
    | .error e => ⟨store, calls, [], some e⟩
    | .ok data' =>
      let chunkRows := ch.filterMap (fun ix => data'.get? ix)
      runChunks engine (some (updateFile store chunkRows)) data' rest (calls + ch.length)

/-- `SimulCollector.run`: a logged no-op when the missing-rows table is
empty, otherwise split the row indices into chunks of the configured target
size and drain them through the engine with per-chunk persistence. -/
def collectorRun (c : Collector) (engine : RowC → Except String (ℚ × ℚ)) : RunOutcome :=
  if c.data.isEmpty then
    ⟨c.store, 0, ["No additional data required. Skipping simulations."], none⟩
  else
    let n := c.data.length
    let k := if c.chunkSize = 0 then 0 else (n + c.chunkSize - 1) / c.chunkSize
    runChunks engine c.store c.data (arraySplit (List.range n) k) 0

/-! ## Helper lemmas -/

/-- Rounding to the fixed precision is idempotent. -/
theorem roundP_idem (x : ℚ) : roundP (roundP x) = roundP x := by
  unfold roundP
  rw [div_mul_cancel₀ _ (by norm_num : (1000 : ℚ) ≠ 0)]
  rw [round_intCast]

/-- Cell rounding is idempotent. -/
theorem roundC_idem (c : Option ℚ) : roundC (roundC c) = roundC c := by
  cases c with
  | none => rfl
  | some q => simp [roundC, roundP_idem]

/-- Row rounding is idempotent. -/
theorem roundRow_idem (r : RowC) : roundRow (roundRow r) = roundRow r := by
  unfold roundRow
  rw [List.map_map]
  exact List.map_congr_left (fun c _ => roundC_idem c)

/-- Row rounding commutes with column selection. -/
theorem roundRow_take (r : RowC) (n : ℕ) :
    (roundRow r).take n = roundRow (r.take n) := by
  unfold roundRow
  exact (List.map_take roundC r n).symm

/-! ## Claim theorems -/

/-- C1: `CompoundVar.eval` does not consume operators pairwise as described
for every valid evaluation order.  The order `[0, 2, 1]` is accepted by the
constructor (no warning), yet evaluating `[2, 3, 5, 7]` under `*`-only
operations returns 35: the step for operator 1 combines the cell at the
corrected current position with itself (the corrected next position
coincides with it) and then discards the freshly combined value, instead of
combining the surviving cell of operand 1 with the operand immediately to
its right, which the specified semantics (`specOrderedEval`) computes as
`2*3*5*7 = 210`.  The default-order example of the claim does hold:
`(a*b)/c` on `{a:2, b:3, c:6}` yields 1. -/
theorem c1_eval_order_code_bug :
    mkCompoundVar (.list [.num 2, .num 3, .num 5, .num 7])
        (.list [.str "*", .str "*", .str "*"])
        (some (.list [.num 0, .num 2, .num 1]))
      = .ok (⟨[.num 2, .num 3, .num 5, .num 7], ["*", "*", "*"], [0, 2, 1]⟩, false)
    ∧ CompoundVar.eval
        ⟨[.num 2, .num 3, .num 5, .num 7], ["*", "*", "*"], [0, 2, 1]⟩ []
      = .ok (.num 35)
    ∧ specOrderedEval
        ⟨[.num 2, .num 3, .num 5, .num 7], ["*", "*", "*"], [0, 2, 1]⟩ []
      = .ok (.num 210)
    ∧ (35 : ℚ) ≠ 210
    ∧ CompoundVar.eval ⟨[.str "a", .str "b", .str "c"], ["*", "/"], [0, 1]⟩
        [("a", 2), ("b", 3), ("c", 6)] = .ok (.num 1) := by
  refine ⟨rfl, ?_, ?_, by norm_num, ?_⟩
  · simp [CompoundVar.eval, evalLoop, pyGet, pySet, pyPop, paramAsNumeric, operTranslator]
    norm_num
  · simp [specOrderedEval, specFold, specStep, paramAsNumeric, operTranslator, List.enum]
    norm_num
  · simp [CompoundVar.eval, evalLoop, pyGet, pySet, pyPop, paramAsNumeric, operTranslator,
      List.lookup]
    norm_num

/-- C10: evaluation is read-only on the compound expression.  `eval` copies
`self.params` into a local list and never assigns any field of the object,
so the post-state equals the input expression and a later evaluation of the
post-state against another row gives exactly what a fresh evaluation
gives. -/
theorem c10_eval_readonly (cv : CompoundVar) (d d' : List (String × ℚ)) :
    (cv.evalS d).2 = cv
    ∧ (cv.evalS d).1 = cv.eval d
    ∧ ((cv.evalS d).2).evalS d' = cv.evalS d' :=
  ⟨rfl, rfl, rfl⟩

/-- C9: with an empty missing-rows table, `run` only logs the skip message:
the engine is never invoked and the persisted store is left unchanged. -/
theorem c9_empty_run_noop (c : Collector) (engine : RowC → Except String (ℚ × ℚ))
    (h : c.data = []) :
    collectorRun c engine =
      ⟨c.store, 0, ["No additional data required. Skipping simulations."], none⟩ := by
  simp [collectorRun, h]

/-- Witness for C9 at a concrete empty collector. -/
theorem c9_empty_run_noop_witness :
    collectorRun ⟨5, [], some [[some 1, some 2, some 3]]⟩ (fun _ => .error "never") =
      ⟨some [[some 1, some 2, some 3]], 0,
        ["No additional data required. Skipping simulations."], none⟩ :=
  c9_empty_run_noop ⟨5, [], some [[some 1, some 2, some 3]]⟩ (fun _ => .error "never") rfl

/-- C7: `transform_names` applies the given function to every operand, not
only to the name-type ones; with the string transformation actually used by
the program (`_drop_param_prefix`) a numeric literal operand makes the call
fail (Python raises `AttributeError`), whereas the claim requires the
literal to pass through unchanged. -/
theorem c7_transform_names_code_bug :
    transformNames ⟨[.num 2, .str "net.size"], ["*"], [0]⟩ dropParamPrefRaw
      = .error (.typeErr "AttributeError: object has no attribute split")
    ∧ dropParamPrefRaw (.str "net.size") = .ok (.str "size")
    ∧ (∀ cv : CompoundVar, ∀ fn : Raw → Except PyErr Raw,
        transformNames cv fn = (exceptMapM fn cv.params).map
          (fun ps => { cv with params := ps })) := by
  refine ⟨rfl, ?_, ?_⟩
  · simp [dropParamPrefRaw, dropParamPref, splitDotsAux, String.data]
  · intro cv fn
    unfold transformNames
    cases exceptMapM fn cv.params <;> rfl

/-- C5 counterexample: an invalid custom order of the correct length whose
elements Python cannot mutually compare — here `[0, "a"]` for two
operators, a list that is not a permutation of the operator indices — makes
`sorted(order)` at `utils.py:38` raise an uncaught `TypeError` instead of
falling back with a warning, refuting the claim that an invalid custom
order never raises. -/
theorem c5_unorderable_order_counterexample :
    mkCompoundVar (.list [.str "a", .str "b", .str "c"]) (.list [.str "*", .str "/"])
        (some (.list [.num 0, .str "a"]))
      = .error (.typeErr "unorderable types in sorted")
    ∧ (∀ cv : CompoundVar, ∀ w : Bool,
        mkCompoundVar (.list [.str "a", .str "b", .str "c"]) (.list [.str "*", .str "/"])
          (some (.list [.num 0, .str "a"])) ≠ .ok (cv, w)) := by
  refine ⟨by rfl, ?_⟩
  intro cv w h
  rw [(by rfl : mkCompoundVar (.list [.str "a", .str "b", .str "c"])
      (.list [.str "*", .str "/"]) (some (.list [.num 0, .str "a"]))
      = .error (.typeErr "unorderable types in sorted"))] at h
  exact absurd h (by simp)

/-- C5 as amended: an invalid custom order never raises provided Python can
sort it.  For a valid construction: an order list of the wrong length falls
back to the default left-to-right order with a warning whatever its
elements (the length test short-circuits before `sorted`); a same-length
order list that sorts (for instance any list of integers, such as `[0, 0]`)
but differs from `sorted(range(len(operations)))` falls back likewise; and
the fallback order is the default one.  A same-length order with
unorderable elements instead raises a `TypeError` (the counterexample). -/
theorem c5_sortable_order_fallback_amended (params operations : Raw) (l : List Raw)
    (cv : CompoundVar)
    (hvalid : mkCompoundVar params operations none = .ok (cv, false)) :
    (l.length ≠ cv.operations.length →
      mkCompoundVar params operations (some (.list l)) = .ok (cv, true))
    ∧ (∀ sl, l.length = cv.operations.length → pySortedRaw l = some sl →
        eqRawNumList sl (List.range cv.operations.length) = false →
        mkCompoundVar params operations (some (.list l)) = .ok (cv, true))
    ∧ cv.order = List.range cv.operations.length := by
  unfold mkCompoundVar at hvalid ⊢
  cases hv : validateCompound params operations with
  | error m =>
    rw [hv] at hvalid
    exact absurd hvalid (by simp)
  | ok pr =>
    obtain ⟨ps, names⟩ := pr
    rw [hv] at hvalid
    simp only [Except.ok.injEq, Prod.mk.injEq, and_true] at hvalid
    subst hvalid
    refine ⟨?_, ?_, rfl⟩
    · intro hlen
      simp only at hlen
      simp [hlen]
    · intro sl hlen hsl heq
      simp only at hlen heq
      simp [hlen, hsl, heq]

/-- Witness for C5 (amended): order `[0, 0]` for two operators falls back
to `[0, 1]` with a warning, and the wrong-length order `[0]` falls back the
same way, neither raising. -/
theorem c5_sortable_order_fallback_amended_witness :
    mkCompoundVar (.list [.str "a", .str "b", .str "c"]) (.list [.str "*", .str "/"])
        (some (.list [.num 0, .num 0]))
      = .ok (⟨[.str "a", .str "b", .str "c"], ["*", "/"], [0, 1]⟩, true)
    ∧ mkCompoundVar (.list [.str "a", .str "b", .str "c"]) (.list [.str "*", .str "/"])
        (some (.list [.num 0]))
      = .ok (⟨[.str "a", .str "b", .str "c"], ["*", "/"], [0, 1]⟩, true) :=
  ⟨(c5_sortable_order_fallback_amended (.list [.str "a", .str "b", .str "c"])
      (.list [.str "*", .str "/"]) [.num 0, .num 0]
      ⟨[.str "a", .str "b", .str "c"], ["*", "/"], [0, 1]⟩ rfl).2.1
      [.num 0, .num 0] rfl (by rfl) (by rfl),
    (c5_sortable_order_fallback_amended (.list [.str "a", .str "b", .str "c"])
      (.list [.str "*", .str "/"]) [.num 0]
      ⟨[.str "a", .str "b", .str "c"], ["*", "/"], [0, 1]⟩ rfl).1 (by decide)⟩

/-- The last element of a mapped range. -/
theorem getLast?_range_map {α : Type} (f : ℕ → α) (n : ℕ) (hn : n ≠ 0) :
    ((List.range n).map f).getLast? = some (f (n - 1)) := by
  cases n with
  | zero => exact absurd rfl hn
  | succ m =>
    rw [List.range_succ, List.map_append]
    simp

/-- When `(stop - start)` is an exact multiple of `step`, a non-empty
expanded range ends exactly at `stop`. -/
theorem arange_getLast (a s b : ℚ) (hs : s ≠ 0) (k : ℤ) (hk : b - a = k * s)
    (hne : arange a s b ≠ []) : (arange a s b).getLast? = some b := by
  have hsum : b + s - a = ((k : ℚ) + 1) * s := by
    have : b - a = (k : ℚ) * s := hk
    ring_nf
    ring_nf at this
    linarith
  have hlen : ((b + s - a) / s : ℚ) = ((k + 1 : ℤ) : ℚ) := by
    rw [hsum, mul_div_cancel_right₀ _ hs]
    push_cast
    ring
  unfold arange at hne ⊢
  rw [hlen, Int.ceil_intCast] at hne ⊢
  have hn : (k + 1).toNat ≠ 0 := by
    intro h0
    exact hne (by simp [h0])
  have hk0 : 0 ≤ k := by omega
  rw [getLast?_range_map _ _ hn]
  have hcast : (((k + 1).toNat - 1 : ℕ) : ℚ) = (k : ℚ) := by
    have h1 : (k + 1).toNat - 1 = k.toNat := by omega
    rw [h1]
    exact_mod_cast congrArg (fun z : ℤ => (z : ℚ)) (Int.toNat_of_nonneg hk0)
  rw [hcast]
  have : (k : ℚ) * s = b - a := hk.symm
  congr 1
  linarith

/-- C4: a `{start, step, stop}` descriptor (with a non-degenerate step)
expands through `np.arange` extended one step past `stop`: an empty
progression raises a `SpecificationError`, a non-empty one is returned as
the value domain, and when `(stop - start)` is an exact multiple of `step`
its last element is exactly `stop`. -/
theorem c4_range_descriptor (d : PyDict) (a s b : ℚ) (hs : s ≠ 0)
    (ha : d.lookup "start" = some (.num a))
    (hstep : d.lookup "step" = some (.num s))
    (hstop : d.lookup "stop" = some (.num b)) :
    (arange a s b = [] →
      processValue (.dict d) true false
        = .error (.specErr "Value presents an empty list of parameters"))
    ∧ (arange a s b ≠ [] →
      processValue (.dict d) true false = .ok (.arr ((arange a s b).map PVal.num)))
    ∧ (∀ k : ℤ, b - a = k * s → arange a s b ≠ [] →
        (arange a s b).getLast? = some b) := by
  have hkeys : ((["start", "step", "stop"] : List String).all (dictHasKey d)) = true := by
    simp [dictHasKey, ha, hstep, hstop]
  have hrn : rangeNums d = .ok (a, s, b) := by simp [rangeNums, ha, hstep, hstop]
  refine ⟨?_, ?_, fun k hk hne => arange_getLast a s b hs k hk hne⟩
  · intro hemp
    simp [processValue, hkeys, hrn, hemp]
  · intro hne
    cases harr : arange a s b with
    | nil => exact absurd harr hne
    | cons x xs => simp [processValue, hkeys, hrn, harr]

/-- Witness for C4: the descriptor `{start: 0, step: 2, stop: 6}` expands to
a non-empty domain ending exactly at the stop value 6. -/
theorem c4_range_descriptor_witness :
    processValue (.dict [("start", .num 0), ("step", .num 2), ("stop", .num 6)]) true false
      = .ok (.arr ((arange 0 2 6).map PVal.num))
    ∧ (arange 0 2 6).getLast? = some 6 := by
  have hne : arange 0 2 6 ≠ [] := by
    have h4 : ((6 : ℚ) + 2 - 0) / 2 = ((4 : ℤ) : ℚ) := by norm_num
    simp [arange, h4, Int.ceil_intCast, List.range_succ]
    norm_num
  have h := c4_range_descriptor [("start", .num 0), ("step", .num 2), ("stop", .num 6)]
    0 2 6 (by norm_num) rfl rfl rfl
  exact ⟨h.2.1 hne, h.2.2 3 (by norm_num) hne⟩

/-- Every persisted new row, restricted to the requirement columns and
rounded, is found in the reindexed rounded store. -/
theorem mem_store_rounded (st : Option (List RowC)) (newRows : List RowC) (x : RowC)
    (hx : x ∈ newRows) (nreq : ℕ) :
    roundRow (x.take nreq)
      ∈ ((updateFile st newRows).map (fun r => r.take nreq)).map roundRow := by
  cases st with
  | none =>
    simp only [updateFile, List.map_map, List.mem_map]
    exact ⟨x, hx, rfl⟩
  | some ex =>
    simp only [updateFile, List.map_append, List.map_map, List.mem_append, List.mem_map]
    refine Or.inr ⟨x, hx, ?_⟩
    show roundRow ((roundRow x).take nreq) = roundRow (x.take nreq)
    rw [roundRow_take, roundRow_idem]

/-- C2: persisting the rows of a requirement table (extended with the two
outcome columns) and immediately recomputing the missing set for the same
requirement table yields the empty missing set, whatever the previous store
contents: every persisted row is recognized as already simulated after
precision rounding. -/
theorem c2_persist_then_missing_empty (st : Option (List RowC)) (req newRows : List RowC)
    (nreq : ℕ)
    (hcov : ∀ r ∈ req, ∃ x ∈ newRows, x.take nreq = r) :
    getWorkingData (some (updateFile st newRows)) req nreq = [] := by
  unfold getWorkingData
  simp only [Option.getD_some]
  have hfil : (req.map roundRow).filter
      (fun r => decide
        (r ∉ ((updateFile st newRows).map (fun r => r.take nreq)).map roundRow)) = [] := by
    rw [List.filter_eq_nil_iff]
    intro a ha
    simp only [List.mem_map] at ha
    obtain ⟨r, hr, rfl⟩ := ha
    obtain ⟨x, hx, hxr⟩ := hcov r hr
    simp only [decide_eq_true_eq, not_not, Decidable.not_not]
    rw [← hxr]
    exact mem_store_rounded st newRows x hx nreq
  rw [hfil]
  rfl

/-- Witness for C2: one requirement row with its outcome-extended persisted
row, starting from an absent store. -/
theorem c2_persist_then_missing_empty_witness :
    getWorkingData
      (some (updateFile none [[some 1, some (1/2), some 10, some 20]]))
      [[some 1, some (1/2)]] 2 = [] :=
  c2_persist_then_missing_empty none [[some 1, some (1/2)]]
    [[some 1, some (1/2), some 10, some 20]] 2
    (by
      intro r hr
      simp only [List.mem_singleton] at hr
      subst hr
      exact ⟨[some 1, some (1/2), some 10, some 20], List.mem_singleton.mpr rfl, rfl⟩)

/-- C8 counterexample: on the very first write (store file absent) the new
chunk is written back without rounding, so a value needing rounding is
persisted unrounded, contradicting the claim that every written value is
rounded to 3 decimals. -/
theorem c8_first_write_counterexample :
    updateFile none [[some (1/3)]] = [[some (1/3)]]
    ∧ roundP (1/3) = 333/1000
    ∧ (1/3 : ℚ) ≠ 333/1000
    ∧ updateFile none [[some (1/3)]] ≠ [[some (roundP (1/3))]] := by
  have hr : roundP (1/3) = 333/1000 := by norm_num [roundP, round_eq]
  refine ⟨rfl, hr, by norm_num, ?_⟩
  rw [hr]
  intro h
  injection h with h1 h2
  injection h1 with h3 h4
  injection h3 with h5
  exact absurd h5 (by norm_num)

/-- C8 as amended: when the store file already exists, `update_file` writes
the previously persisted rows followed by the new rows, every written value
rounded to the fixed precision, never dropping or overwriting a row (the
length is the sum and each side appears in order); on the first write the
new rows are written back as-is. -/
theorem c8_append_rounded_amended (ex newRows : List RowC) :
    updateFile (some ex) newRows = ex.map roundRow ++ newRows.map roundRow
    ∧ (updateFile (some ex) newRows).length = ex.length + newRows.length
    ∧ (∀ r, r ∈ updateFile (some ex) newRows → roundRow r = r)
    ∧ updateFile none newRows = newRows := by
  refine ⟨rfl, by simp [updateFile], ?_, rfl⟩
  intro r hr
  simp only [updateFile, List.mem_append, List.mem_map] at hr
  rcases hr with ⟨x, _, rfl⟩ | ⟨x, _, rfl⟩ <;> exact roundRow_idem x

/-- Witness for C8 (amended): a concrete appended row is a fixed point of
rounding. -/
theorem c8_append_rounded_amended_witness :
    roundRow [some (333/1000)] = [some (333/1000)] := by
  have hmem : [some ((333 : ℚ)/1000)] ∈ updateFile (some [[some (1/2)]]) [[some (1/3)]] := by
    simp [updateFile, roundRow, roundC]
    right
    norm_num [roundP, round_eq]
  exact (c8_append_rounded_amended [[some (1/2)]] [[some (1/3)]]).2.2.1
    [some (333/1000)] hmem

/-- C3: `_req_add_results` (the reconciliation behind `get_plotting_data`)
raises the incompleteness store error whenever some rounded requirement row
is absent from the rounded store, raises the distinct null-outcome store
error when all rows match but a matched row still carries a null cell, and
returns only complete results: an `ok` outcome implies every requirement row
was matched and no returned cell is null. -/
theorem c3_report_reconciliation (available req : List RowC) (nreq : ℕ) :
    ((req.map roundRow).any
        (fun r => decide (r ∉ (available.map roundRow).map (fun a => a.take nreq))) = true →
      reqAddResults available req nreq
        = .error (.fileErr "Data set for plots is not complete. Try to resimulate..."))
    ∧ ((∀ r ∈ req.map roundRow,
          r ∈ (available.map roundRow).map (fun a => a.take nreq)) →
      ((available.map roundRow).filter
          (fun a => decide (a.take nreq ∈ req.map roundRow))).any
          (fun r => r.any (fun c => c.isNone)) = true →
      reqAddResults available req nreq
        = .error (.fileErr "Some values required for plotting are not given"))
    ∧ (PyErr.fileErr "Data set for plots is not complete. Try to resimulate..."
        ≠ PyErr.fileErr "Some values required for plotting are not given")
    ∧ (∀ out, reqAddResults available req nreq = .ok out →
        (∀ r ∈ req.map roundRow,
          r ∈ (available.map roundRow).map (fun a => a.take nreq))
        ∧ ∀ r ∈ out, ∀ c ∈ r, c ≠ none) := by
  refine ⟨?_, ?_, by simp, ?_⟩
  · intro hany
    have hne : (req.map roundRow).filter
        (fun r => decide (r ∉ (available.map roundRow).map (fun a => a.take nreq))) ≠ [] := by
      obtain ⟨a, ha, hpa⟩ := List.any_eq_true.mp hany
      intro hnil
      rw [List.filter_eq_nil_iff] at hnil
      exact hnil a ha hpa
    simp only [reqAddResults]
    rw [if_pos hne]
  · intro hall hnull
    have hnil : (req.map roundRow).filter
        (fun r => decide (r ∉ (available.map roundRow).map (fun a => a.take nreq))) = [] := by
      rw [List.filter_eq_nil_iff]
      intro a ha
      simp only [decide_eq_true_eq, Decidable.not_not]
      exact hall a ha
    simp only [reqAddResults]
    rw [if_neg (not_not_intro hnil), if_pos hnull]
  · intro out hout
    simp only [reqAddResults] at hout
    by_cases hfil : (req.map roundRow).filter
        (fun r => decide (r ∉ (available.map roundRow).map (fun a => a.take nreq))) = []
    · rw [if_neg (not_not_intro hfil)] at hout
      by_cases hnull : ((available.map roundRow).filter
          (fun a => decide (a.take nreq ∈ req.map roundRow))).any
          (fun r => r.any (fun c => c.isNone)) = true
      · rw [if_pos hnull] at hout
        exact absurd hout (by simp)
      · rw [if_neg hnull] at hout
        have hsel : out = (available.map roundRow).filter
            (fun a => decide (a.take nreq ∈ req.map roundRow)) := by
          injection hout with h
          exact h.symm
        constructor
        · intro r hr
          rw [List.filter_eq_nil_iff] at hfil
          have h2 := hfil r hr
          rwa [decide_eq_true_eq, Decidable.not_not] at h2
        · intro r hr c hc
          rw [hsel] at hr
          have h1 : ¬ (r.any (fun c => c.isNone) = true) := by
            intro habs
            exact hnull (List.any_eq_true.mpr ⟨r, hr, habs⟩)
          intro hcn
          subst hcn
          exact h1 (List.any_eq_true.mpr ⟨none, hc, rfl⟩)
    · rw [if_pos hfil] at hout
      exact absurd hout (by simp)

/-- Witness for C3: a single-row requirement against an empty store triggers
the incompleteness store error. -/
theorem c3_report_reconciliation_witness :
    reqAddResults [] [[some 1]] 1
      = .error (.fileErr "Data set for plots is not complete. Try to resimulate...") :=
  (c3_report_reconciliation [] [[some 1]] 1).1 (by simp)

/-- A list of integer-valued numbers extracts to a list of rationals. -/
theorem numListOf_isSome_of_asIntList : ∀ (l : List Raw) (zs : List ℤ),
    asIntList l = some zs → ∃ qs, numListOf l = some qs := by
  intro l
  induction l with
  | nil => exact fun _ _ => ⟨[], rfl⟩
  | cons r l ih =>
    intro zs h
    cases r with
    | num q =>
      simp only [asIntList] at h
      by_cases hd : q.den = 1
      · rw [if_pos hd] at h
        cases hz : asIntList l with
        | none => rw [hz] at h; exact absurd h (by simp)
        | some zs' =>
          obtain ⟨qs', hqs'⟩ := ih zs' hz
          exact ⟨q :: qs', by simp [numListOf, hqs']⟩
      · rw [if_neg hd] at h
        exact absurd h (by simp)
    | str s => exact absurd h (by simp [asIntList])
    | list l2 => exact absurd h (by simp [asIntList])
    | dict d2 => exact absurd h (by simp [asIntList])
    | null => exact absurd h (by simp [asIntList])

/-- `sorted` succeeds on a list of integer-valued numbers. -/
theorem pySortedRaw_isSome_of_asIntList (l : List Raw) (zs : List ℤ)
    (h : asIntList l = some zs) : ∃ sl, pySortedRaw l = some sl := by
  unfold pySortedRaw
  by_cases hlen : l.length ≤ 1
  · exact ⟨l, by rw [if_pos hlen]⟩
  · obtain ⟨qs, hqs⟩ := numListOf_isSome_of_asIntList l zs h
    exact ⟨(qsort qs).map Raw.num, by rw [if_neg hlen, hqs]⟩

/-- `CompoundVar.__init__` either succeeds or raises a `SpecificationError`,
provided the order value — when it is a list — is a list of integers (so
that `sorted(order)` cannot raise; an unorderable order list raises an
uncaught `TypeError` instead, see the C6 counterexample). -/
theorem mkCompoundVar_ok_or_specErr (p o : Raw) (ord : Option Raw)
    (hord : ∀ l, ord = some (.list l) → ∃ zs, asIntList l = some zs) :
    (∃ cw, mkCompoundVar p o ord = .ok cw)
    ∨ (∃ s, mkCompoundVar p o ord = .error (.specErr s)) := by
  cases hv : validateCompound p o with
  | error m => exact Or.inr ⟨m, by simp [mkCompoundVar, hv]⟩
  | ok pr =>
    obtain ⟨ps, names⟩ := pr
    cases ord with
    | none =>
      exact Or.inl ⟨(⟨ps, names, List.range names.length⟩, false), by simp [mkCompoundVar, hv]⟩
    | some r =>
      cases r with
      | num q =>
        exact Or.inl ⟨(⟨ps, names, List.range names.length⟩, false), by simp [mkCompoundVar, hv]⟩
      | str s =>
        exact Or.inl ⟨(⟨ps, names, List.range names.length⟩, false), by simp [mkCompoundVar, hv]⟩
      | dict dd =>
        exact Or.inl ⟨(⟨ps, names, List.range names.length⟩, false), by simp [mkCompoundVar, hv]⟩
      | null =>
        exact Or.inl ⟨(⟨ps, names, List.range names.length⟩, false), by simp [mkCompoundVar, hv]⟩
      | list l =>
        obtain ⟨zs, hzs⟩ := hord l rfl
        by_cases hlen : l.length = names.length
        · obtain ⟨sl, hsl⟩ := pySortedRaw_isSome_of_asIntList l zs hzs
          by_cases heq : eqRawNumList sl (List.range names.length) = true
          · exact Or.inl ⟨(⟨ps, names, ((asIntList l).getD []).map Int.toNat⟩, false),
              by simp [mkCompoundVar, hv, hlen, hsl, heq]⟩
          · exact Or.inl ⟨(⟨ps, names, List.range names.length⟩, true),
              by simp [mkCompoundVar, hv, hlen, hsl, heq]⟩
        · exact Or.inl ⟨(⟨ps, names, List.range names.length⟩, true),
            by simp [mkCompoundVar, hv, hlen]⟩

/-- C6 counterexample: a report entry with a `groups` section whose
`plot.args` compound descriptor carries the same-length unorderable order
list `[0, "a"]` does not raise a `SpecificationError`: the `sorted(order)`
call inside `CompoundVar.__init__` raises an uncaught `TypeError`
(`parse_req` catches only `KeyError` and `SpecificationError`), refuting
the claim as universally stated. -/
theorem c6_order_typeerror_counterexample :
    parseReqPart
      [("plot.args", .dict [("params", .list [.str "net.size", .str "model.q", .str "model.x"]),
          ("operations", .list [.str "*", .str "/"]),
          ("order", .list [.num 0, .str "a"])]),
        ("plot.group", .str "model.eps"),
        ("groups", .list [.dict []])]
      = .error (.typeErr "unorderable types in sorted")
    ∧ (∀ m, PyErr.typeErr "unorderable types in sorted" ≠ PyErr.specErr m) :=
  ⟨by rfl, by intro m; simp⟩

/-- C6 as amended: a report entry with an explicit `groups` section whose
argument key is a compound-expression descriptor is rejected with a
`SpecificationError`, provided the descriptor's order value (when it is a
list) is a list of integers — so that construction cannot raise the
uncaught `TypeError` of the counterexample.  (The rejection already happens
while extracting the argument variable: `_process_value` wraps the compound
variable in an array, so the `isinstance(..., CompoundVar)` test fails and
the parser raises `Unknown plot argument specification`; a malformed
descriptor raises the constructor's own `SpecificationError` instead.) -/
theorem c6_groups_compound_arg_amended (spec : PyDict) (d : PyDict) (g : Raw)
    (hargs : spec.lookup "plot.args" = some (.dict d))
    (hp : dictHasKey d "params" = true)
    (ho : dictHasKey d "operations" = true)
    (hg : spec.lookup "groups" = some g)
    (hord : ∀ l, d.lookup "order" = some (.list l) → ∃ zs, asIntList l = some zs) :
    ∃ m, parseReqPart spec = .error (.specErr m) := by
  have hpop : dictPop spec "plot.args"
      = .ok (.dict d, spec.filter (fun p => p.1 ≠ "plot.args")) := by
    simp [dictPop, hargs]
  have hall : ((["params", "operations"] : List String).all (dictHasKey d)) = true := by
    simp [List.all, hp, ho]
  have hmv : ∃ s, plotMainVarOf (.dict d) = .error (.specErr s) := by
    unfold plotMainVarOf processValue
    rcases mkCompoundVar_ok_or_specErr ((d.lookup "params").getD .null)
        ((d.lookup "operations").getD .null) (d.lookup "order") hord
      with ⟨⟨cv, w⟩, hmk⟩ | ⟨s, hmk⟩
    · exact ⟨"Unknown plot argument specification", by simp [hmk, hall, wrapScalar]⟩
    · exact ⟨s, by simp [hmk, hall]⟩
  obtain ⟨s, hs⟩ := hmv
  refine ⟨s, ?_⟩
  simp only [parseReqPart, hpop, hs]

/-- Witness for C6 (amended): a concrete entry with a `groups` section and
a compound argument descriptor (no order key) is rejected. -/
theorem c6_groups_compound_arg_amended_witness :
    ∃ m, parseReqPart
      [("plot.args", .dict [("params", .list [.str "net.size", .str "model.q"]),
          ("operations", .list [.str "*"])]),
        ("plot.group", .str "model.eps"),
        ("groups", .list [.dict []])] = .error (.specErr m) :=
  c6_groups_compound_arg_amended _
    [("params", .list [.str "net.size", .str "model.q"]),
      ("operations", .list [.str "*"])]
    (.list [.dict []]) rfl rfl rfl rfl
    (by intro l h; simp [List.lookup] at h)
